import Mathlib

/-!
Shallow embedding of `src/vtk_utils/main_dataformat.py` (SPPARKS_HPC data-format
pipeline): streaming tar ingestion into a length-keyed registry of temporal
sequences, and HDF5 dataset generation from that registry.

Modelling conventions:
* `α` is the abstract type of decoded VTK frames (`vtk.vtkImageData`); `β` is the
  abstract type of dense numpy arrays.  The external collaborators
  `convert_vtk_instance_to_numpy` and `extract_top_2D_slice_with_voi` (imported
  from `vtk_data_utils`, not in `src/`) are universally quantified functions
  `α → Bool → β` and `α → α`.
* A tar member is a tagged value: a directory marker, a regular file whose bytes
  decode to `Option α` (the result of `process_file`/`read_vtk_instance`;
  `none` models a decode failure, skipped by the source), or any other member
  kind.  The name check `".vti." in member.name` is modelled on `List Char`.
* The traversal outcome is modelled by the list of members successfully read
  before the stream ended, together with how it ended: normally, with
  `EOFError` (truncation), with `tarfile.ReadError`, or with any other
  exception.  `print` diagnostics become an explicit log component.
* The filesystem is modelled by explicit write events `(path, file)` and a
  `String → Option file` map updated write-by-write; `h5py.File(p, "w")`
  semantics is last-write-wins.
-/

namespace Spparks

/-- One member read from the tar stream: a directory marker, a regular file
(with the decode result of its bytes), or any other member kind (link, fifo, ...). -/
inductive TarMember (α : Type) where
  | dir (name : List Char)
  | file (name : List Char) (decoded : Option α)
  | special (name : List Char)
  deriving DecidableEq, Repr

/-- `member.isdir()` test. -/
def TarMember.isBoundary {α : Type} : TarMember α → Bool
  | .dir _ => true
  | _ => false

/-- The per-frame naming marker: the Python code keeps file members with
`".vti." in member.name`. -/
def vtiMarker : List Char := ['.', 'v', 't', 'i', '.']

/-- `pat` occurs at the very start of `s`. -/
def leadsWith : List Char → List Char → Bool
  | [], _ => true
  | _ :: _, [] => false
  | p :: ps, c :: cs => p == c && leadsWith ps cs

/-- `pat` occurs contiguously somewhere in `s` (Python `pat in s`). -/
def containsSub (pat : List Char) : List Char → Bool
  | [] => leadsWith pat []
  | c :: rest => leadsWith pat (c :: rest) || containsSub pat rest

/-- `".vti." in name`, Python substring containment. -/
def nameMatchesFramePattern (name : List Char) : Bool :=
  containsSub vtiMarker name

/-- The registry `all_sample`: a Python `dict` from sequence length to the list
of experiments of that length, in key-insertion order. -/
abbrev Registry (α : Type) := List (Nat × List (List α))

/-- Append `seq` to the bucket keyed `k`, creating the bucket at the end
(Python dict insertion order) when absent. -/
def addToBucket {α : Type} (k : Nat) (seq : List α) : Registry α → Registry α
  | [] => [(k, [seq])]
  | (k', seqs) :: rest =>
      if k = k' then (k', seqs ++ [seq]) :: rest
      else (k', seqs) :: addToBucket k seq rest

/-- Modelled from the spec: `process_directory` (imported from `vtk_tar_utils`,
which is not under `src/`).  Per spec sections 4.2-4.3 it flushes the current
open temporal sequence into the registry under the bucket keyed by its own
length, never registers a zero-length sequence, and resets the open sequence to
a fresh empty one. -/
def process_directory {α : Type} (seq : List α) (reg : Registry α) :
    List α × Registry α :=
  if seq.isEmpty then ([], reg)
  else ([], addToBucket seq.length seq reg)

/-- One iteration of the member loop of `extract_vtk_folders_from_tar`
(state = (temporal_sequence, all_sample)). -/
def processMember {α : Type} (st : List α × Registry α) (m : TarMember α) :
    List α × Registry α :=
  match m with
  | .dir _ =>
      if st.1.isEmpty then st else process_directory st.1 st.2
  | .file name decoded =>
      if nameMatchesFramePattern name then
        match decoded with
        | some inst => (st.1 ++ [inst], st.2)
        | none => st
      else st
  | .special _ => st

/-- How the member stream ended: normal exhaustion, `EOFError` (truncated or
corrupted archive), `tarfile.ReadError`, or any other exception (message kept
for the diagnostic). -/
inductive StreamEnd where
  | normal
  | truncated
  | readFailed
  | otherFailed (msg : String)
  deriving DecidableEq, Repr

/-- `extract_vtk_folders_from_tar`: fold the member loop over the members read
before the stream ended, then apply the end-of-stream / exception handling of
the source.  Returns the registry together with the printed diagnostics. -/
def extract_vtk_folders_from_tar {α : Type} (tar_path : String)
    (members : List (TarMember α)) (e : StreamEnd) : Registry α × List String :=
  let st := members.foldl processMember ([], [])
  match e with
  | .normal =>
      if st.1.isEmpty then (st.2, [])
      else ((process_directory st.1 st.2).2, [])
  | .truncated =>
      ((process_directory st.1 st.2).2,
        ["Warning: Reached corrupted section in tar file"])
  | .readFailed =>
      (st.2, ["Error reading tar file: " ++ tar_path])
  | .otherFailed msg =>
      (st.2, ["An error occurred while processing the TAR file: " ++ msg])

/-- The content of one HDF5 file: the ordered list of datasets created in it,
each a name paired with its stacked array (a `np.array` of a list of converted
frames is modelled as that list). -/
abbrev H5File (β : Type) := List (String × List β)

/-- `save_data_to_hdf5`: open `output_file` in mode "w" and create the single
dataset "images" holding the stacked `data_list`.  Modelled as the write event
it produces. -/
def save_data_to_hdf5 {β : Type} (data_list : List β) (output_file : String) :
    String × H5File β :=
  (output_file, [("images", data_list)])

/-- Result of `generate_datasets`: the returned pair `(datapath_2D,
datapath_3D)` plus the file-write events it performed, in the order performed. -/
structure GenOutput (β : Type) where
  datapath_2D : Option String
  datapath_3D : Option String
  writes : List (String × H5File β)
  deriving DecidableEq, Repr

/-- One iteration of the conversion loop of `generate_datasets`: append the 3D
conversion (`convert v False`) when `generate_3D`, and the 2D conversion
(first `extract_top_2D_slice_with_voi`, then `convert _ True`) when `slicing`. -/
def convertStep {α β : Type} (convert : α → Bool → β) (extractTop : α → α)
    (slicing generate_3D : Bool) (acc : List β × List β) (vtkimage : α) :
    List β × List β :=
  let a3 := if generate_3D then acc.1 ++ [convert vtkimage false] else acc.1
  let a2 := if slicing then acc.2 ++ [convert (extractTop vtkimage) true] else acc.2
  (a3, a2)

/-- `generate_datasets`: convert each vtk image with the conversion loop, then
save the 3D file (when `generate_3D`) and afterwards the 2D file (when
`slicing`).  `os.path.join` is modelled as path concatenation with "/". -/
def generate_datasets {α β : Type} (convert : α → Bool → β) (extractTop : α → α)
    (data_list : List α) (output_path output_name : String)
    (slicing generate_3D : Bool) : GenOutput β :=
  let lists := data_list.foldl
    (convertStep convert extractTop slicing generate_3D) ([], [])
  let out3 : List (String × H5File β) × Option String :=
    if generate_3D then
      let p := output_path ++ "/" ++ output_name ++ "_3D.h5"
      ([save_data_to_hdf5 lists.1 p], some p)
    else ([], none)
  let out2 : List (String × H5File β) × Option String :=
    if slicing then
      let p := output_path ++ "/" ++ output_name ++ "_2D.h5"
      ([save_data_to_hdf5 lists.2 p], some p)
    else ([], none)
  { datapath_2D := out2.2, datapath_3D := out3.2, writes := out3.1 ++ out2.1 }

/-- One iteration of the per-length loop of
`generate_datasets_from_sample_list`: flatten the experiments of this length,
generate the datasets under base name `output_name ++ "_len_" ++ sample_count`,
and collect the returned 2D path then 3D path. -/
def generateStep {α β : Type} (convert : α → Bool → β) (extractTop : α → α)
    (output_path output_name : String) (slicing generate_3D : Bool)
    (acc : List String × List (String × H5File β)) (kv : Nat × List (List α)) :
    List String × List (String × H5File β) :=
  let filename := output_name ++ "_len_" ++ toString kv.1
  let flatten_list := kv.2.flatten
  let r := generate_datasets convert extractTop flatten_list
    output_path filename slicing generate_3D
  let fp1 := match r.datapath_2D with
    | some p => acc.1 ++ [p]
    | none => acc.1
  let fp2 := match r.datapath_3D with
    | some p => fp1 ++ [p]
    | none => fp1
  (fp2, acc.2 ++ r.writes)

/-- `generate_datasets_from_sample_list`: fold the per-length loop over the
registry in iteration order.  Returns `(file_paths, write events)`. -/
def generate_datasets_from_sample_list {α β : Type} (convert : α → Bool → β)
    (extractTop : α → α) (all_samples : Registry α)
    (output_path output_name : String) (slicing generate_3D : Bool) :
    List String × List (String × H5File β) :=
  all_samples.foldl
    (generateStep convert extractTop output_path output_name slicing generate_3D)
    ([], [])

/-- Apply one write event to a filesystem: the path now maps to the new file,
whatever was there before (mode "w" overwrites). -/
def applyWrite {β : Type} (fs : String → Option (H5File β))
    (w : String × H5File β) : String → Option (H5File β) :=
  fun p => if p = w.1 then some w.2 else fs p

/-- Apply a list of write events in order. -/
def applyWrites {β : Type} (fs : String → Option (H5File β))
    (ws : List (String × H5File β)) : String → Option (H5File β) :=
  ws.foldl applyWrite fs

/-- The 2D write event `generate_datasets` performs for one registry entry. -/
def bucket2DWrite {α β : Type} (convert : α → Bool → β) (extractTop : α → α)
    (output_path output_name : String) (kv : Nat × List (List α)) :
    String × H5File β :=
  (output_path ++ "/" ++ output_name ++ "_len_" ++ toString kv.1 ++ "_2D.h5",
    [("images", kv.2.flatten.map (fun v => convert (extractTop v) true))])

/-- The 3D write event `generate_datasets` performs for one registry entry. -/
def bucket3DWrite {α β : Type} (convert : α → Bool → β)
    (output_path output_name : String) (kv : Nat × List (List α)) :
    String × H5File β :=
  (output_path ++ "/" ++ output_name ++ "_len_" ++ toString kv.1 ++ "_3D.h5",
    [("images", kv.2.flatten.map (fun v => convert v false))])

/-- The decoded frame a member contributes to the open sequence, if any: a
regular file whose name carries the ".vti." marker and whose bytes decode
successfully. -/
def framePayload {α : Type} : TarMember α → Option α
  | .file name (some a) =>
      if nameMatchesFramePattern name then some a else none
  | _ => none

/-- The two registry invariants: bucket keys are pairwise distinct, and every
registered sequence is non-empty with length equal to its bucket key. -/
def goodRegistry {α : Type} (reg : Registry α) : Prop :=
  (reg.map Prod.fst).Nodup
    ∧ ∀ kv ∈ reg, ∀ sq ∈ kv.2, sq.length = kv.1 ∧ sq ≠ []

/-! Concrete fixtures used for instantiating the theorems. -/

/-- A file name carrying the ".vti." per-frame marker. -/
def sampleVtiName : List Char := ['f', '.', 'v', 't', 'i', '.', '1']

/-- A concrete stand-in for `convert_vtk_instance_to_numpy` on `Nat` frames. -/
def natConvert : Nat → Bool → Nat := fun v s => if s then v + 100 else v

/-- A concrete stand-in for `extract_top_2D_slice_with_voi` on `Nat` frames. -/
def natExtractTop : Nat → Nat := fun v => v * 2

/-! Characterization of the generation stage. -/

lemma convertFold_eq {α β : Type} (convert : α → Bool → β) (extractTop : α → α)
    (s g : Bool) (dl : List α) (acc : List β × List β) :
    dl.foldl (convertStep convert extractTop s g) acc
      = (acc.1 ++ (if g then dl.map (fun v => convert v false) else []),
         acc.2 ++ (if s then dl.map (fun v => convert (extractTop v) true) else [])) := by
  induction dl generalizing acc with
  | nil => simp
  | cons v t ih =>
      rw [List.foldl_cons, ih]
      cases s <;> cases g <;> simp [convertStep]

lemma generate_datasets_eq {α β : Type} (convert : α → Bool → β)
    (extractTop : α → α) (dl : List α) (p n : String) (s g : Bool) :
    generate_datasets convert extractTop dl p n s g =
      { datapath_2D := if s then some (p ++ "/" ++ n ++ "_2D.h5") else none,
        datapath_3D := if g then some (p ++ "/" ++ n ++ "_3D.h5") else none,
        writes :=
          (if g then
              [(p ++ "/" ++ n ++ "_3D.h5",
                [("images", dl.map (fun v => convert v false))])]
            else [])
          ++ (if s then
              [(p ++ "/" ++ n ++ "_2D.h5",
                [("images", dl.map (fun v => convert (extractTop v) true))])]
            else []) } := by
  cases s <;> cases g <;>
    simp [generate_datasets, convertFold_eq, save_data_to_hdf5]

lemma generateStep_acc {α β : Type} (convert : α → Bool → β) (extractTop : α → α)
    (p n : String) (s g : Bool) (acc : List String × List (String × H5File β))
    (kv : Nat × List (List α)) :
    generateStep convert extractTop p n s g acc kv
      = (acc.1 ++ (generateStep convert extractTop p n s g ([], []) kv).1,
         acc.2 ++ (generateStep convert extractTop p n s g ([], []) kv).2) := by
  simp only [generateStep]
  cases h2 : (generate_datasets convert extractTop kv.2.flatten p
      (n ++ "_len_" ++ toString kv.1) s g).datapath_2D <;>
    cases h3 : (generate_datasets convert extractTop kv.2.flatten p
        (n ++ "_len_" ++ toString kv.1) s g).datapath_3D <;>
      simp [h2, h3]

lemma foldl_generateStep_acc {α β : Type} (convert : α → Bool → β)
    (extractTop : α → α) (p n : String) (s g : Bool) (reg : Registry α)
    (acc : List String × List (String × H5File β)) :
    reg.foldl (generateStep convert extractTop p n s g) acc
      = (acc.1 ++ (reg.foldl (generateStep convert extractTop p n s g) ([], [])).1,
         acc.2 ++ (reg.foldl (generateStep convert extractTop p n s g) ([], [])).2) := by
  induction reg generalizing acc with
  | nil => simp
  | cons kv t ih =>
      rw [List.foldl_cons, List.foldl_cons, ih,
        ih (generateStep convert extractTop p n s g ([], []) kv),
        generateStep_acc convert extractTop p n s g acc kv]
      simp

lemma gdfsl_eq {α β : Type} (convert : α → Bool → β) (extractTop : α → α)
    (reg : Registry α) (p n : String) (s g : Bool) :
    generate_datasets_from_sample_list convert extractTop reg p n s g
      = (reg.flatMap (fun kv =>
            (if s then [(bucket2DWrite convert extractTop p n kv).1] else [])
            ++ (if g then [(bucket3DWrite convert p n kv).1] else [])),
         reg.flatMap (fun kv =>
            (if g then [bucket3DWrite convert p n kv] else [])
            ++ (if s then [bucket2DWrite convert extractTop p n kv] else []))) := by
  induction reg with
  | nil => simp [generate_datasets_from_sample_list]
  | cons kv t ih =>
      rw [generate_datasets_from_sample_list, List.foldl_cons,
        foldl_generateStep_acc]
      rw [generate_datasets_from_sample_list] at ih
      rw [ih]
      have hstep : generateStep convert extractTop p n s g ([], []) kv
          = ((if s then [(bucket2DWrite convert extractTop p n kv).1] else [])
              ++ (if g then [(bucket3DWrite convert p n kv).1] else []),
             (if g then [bucket3DWrite convert p n kv] else [])
              ++ (if s then [bucket2DWrite convert extractTop p n kv] else [])) := by
        cases s <;> cases g <;>
          simp [generateStep, generate_datasets_eq, bucket2DWrite, bucket3DWrite,
            String.append_assoc]
      rw [hstep]
      simp

/-! Characterization of the ingestion stage. -/

lemma foldl_processMember_no_boundary {α : Type} (members : List (TarMember α))
    (h : ∀ m ∈ members, m.isBoundary = false) (st : List α × Registry α) :
    members.foldl processMember st
      = (st.1 ++ members.filterMap framePayload, st.2) := by
  induction members generalizing st with
  | nil => simp
  | cons m t ih =>
      have hm : m.isBoundary = false := h m (by simp)
      have ht : ∀ m' ∈ t, m'.isBoundary = false := fun m' hm' => h m' (by simp [hm'])
      cases m with
      | dir nm => simp [TarMember.isBoundary] at hm
      | file nm d =>
          cases d with
          | none =>
              rw [List.foldl_cons, ih ht]
              by_cases hp : nameMatchesFramePattern nm <;>
                simp [processMember, framePayload, hp]
          | some a =>
              rw [List.foldl_cons, ih ht]
              by_cases hp : nameMatchesFramePattern nm <;>
                simp [processMember, framePayload, hp]
      | special nm =>
          rw [List.foldl_cons, ih ht]
          simp [processMember, framePayload]

lemma mem_keys_addToBucket {α : Type} (k : Nat) (v : List α) :
    ∀ (reg : Registry α) (x : Nat),
      x ∈ (addToBucket k v reg).map Prod.fst → x ∈ reg.map Prod.fst ∨ x = k := by
  intro reg
  induction reg with
  | nil =>
      intro x hx
      right
      simpa [addToBucket] using hx
  | cons kv t ih =>
      obtain ⟨k', seqs⟩ := kv
      intro x hx
      rw [addToBucket] at hx
      rw [List.map_cons]
      by_cases hk : k = k'
      · rw [if_pos hk, List.map_cons] at hx
        rcases List.mem_cons.mp hx with h | h
        · exact Or.inl (List.mem_cons.mpr (Or.inl h))
        · exact Or.inl (List.mem_cons.mpr (Or.inr h))
      · rw [if_neg hk, List.map_cons] at hx
        rcases List.mem_cons.mp hx with h | h
        · exact Or.inl (List.mem_cons.mpr (Or.inl h))
        · rcases ih x h with h' | h'
          · exact Or.inl (List.mem_cons.mpr (Or.inr h'))
          · exact Or.inr h'

lemma addToBucket_good {α : Type} (k : Nat) (v : List α) (hv : v ≠ [])
    (hk : v.length = k) :
    ∀ reg : Registry α, goodRegistry reg → goodRegistry (addToBucket k v reg) := by
  intro reg
  induction reg with
  | nil =>
      intro _
      refine ⟨by simp [addToBucket], ?_⟩
      intro kv hkv sq hsq
      simp [addToBucket] at hkv
      subst hkv
      simp at hsq
      subst hsq
      exact ⟨hk, hv⟩
  | cons kv t ih =>
      obtain ⟨k', seqs⟩ := kv
      intro hreg
      obtain ⟨hnd, hmem⟩ := hreg
      rw [List.map_cons, List.nodup_cons] at hnd
      have htgood : goodRegistry t :=
        ⟨hnd.2, fun kv' hkv' sq hsq => hmem kv' (List.mem_cons_of_mem _ hkv') sq hsq⟩
      rw [addToBucket]
      by_cases hkk : k = k'
      · rw [if_pos hkk]
        refine ⟨?_, ?_⟩
        · rw [List.map_cons, List.nodup_cons]
          exact ⟨hnd.1, hnd.2⟩
        · intro kv' hkv' sq hsq
          rcases List.mem_cons.mp hkv' with h' | h'
          · subst h'
            rcases List.mem_append.mp hsq with h2 | h2
            · exact hmem (k', seqs) (List.mem_cons_self _ _) sq h2
            · have hsqv : sq = v := by simpa using h2
              subst hsqv
              exact ⟨hk.trans hkk, hv⟩
          · exact hmem kv' (List.mem_cons_of_mem _ h') sq hsq
      · rw [if_neg hkk]
        obtain ⟨hnd', hmem'⟩ := ih htgood
        refine ⟨?_, ?_⟩
        · rw [List.map_cons, List.nodup_cons]
          refine ⟨?_, hnd'⟩
          intro hcontra
          rcases mem_keys_addToBucket k v t k' hcontra with h' | h'
          · exact hnd.1 h'
          · exact hkk h'.symm
        · intro kv' hkv' sq hsq
          rcases List.mem_cons.mp hkv' with h' | h'
          · subst h'
            exact hmem (k', seqs) (List.mem_cons_self _ _) sq hsq
          · exact hmem' kv' h' sq hsq

lemma process_directory_good {α : Type} (sq : List α) (reg : Registry α)
    (hreg : goodRegistry reg) : goodRegistry (process_directory sq reg).2 := by
  rw [process_directory]
  by_cases h : sq.isEmpty
  · simpa [h] using hreg
  · simp only [h, Bool.false_eq_true, if_false]
    exact addToBucket_good sq.length sq
      (by simpa [List.isEmpty_iff] using h) rfl reg hreg

lemma foldl_processMember_good {α : Type} (members : List (TarMember α))
    (st : List α × Registry α) (hst : goodRegistry st.2) :
    goodRegistry ((members.foldl processMember st).2) := by
  induction members generalizing st with
  | nil => simpa using hst
  | cons m t ih =>
      rw [List.foldl_cons]
      refine ih (processMember st m) ?_
      cases m with
      | dir nm =>
          by_cases h : st.1.isEmpty
          · simpa [processMember, h] using hst
          · simp only [processMember, h, Bool.false_eq_true, if_false]
            exact process_directory_good st.1 st.2 hst
      | file nm d =>
          by_cases hp : nameMatchesFramePattern nm
          · cases d <;> simpa [processMember, hp] using hst
          · simpa [processMember, hp] using hst
      | special nm => simpa [processMember] using hst

lemma extract_good {α : Type} (tar_path : String)
    (members : List (TarMember α)) (e : StreamEnd) :
    goodRegistry (extract_vtk_folders_from_tar tar_path members e).1 := by
  have hfold : goodRegistry ((members.foldl processMember ([], [])).2) :=
    foldl_processMember_good members ([], []) ⟨by simp, by simp⟩
  cases e with
  | normal =>
      rw [extract_vtk_folders_from_tar]
      by_cases h : (members.foldl processMember ([], [])).1.isEmpty
      · simpa [h] using hfold
      · simp only [h, Bool.false_eq_true, if_false]
        exact process_directory_good _ _ hfold
  | truncated =>
      exact process_directory_good _ _ hfold
  | readFailed => exact hfold
  | otherFailed msg => exact hfold

/-! Claim theorems. -/

/-- C1: for every registry produced by ingestion and every call to
`generate_datasets_from_sample_list` with `slicing = true`, the write events
are, for each `(length, sequences)` pair in registry iteration order, the
optional 3D file followed by exactly one 2D file at path
`output_path/output_name_len_length_2D.h5` whose single "images" dataset
stacks, in flattened order (experiment order, then frame order), the
2D conversion (`slicing = true`) of every frame; moreover the registry's
length keys are pairwise distinct, so exactly one such 2D file arises per
length. -/
theorem C1_generate_2D_per_length {α β : Type} (tar_path : String)
    (members : List (TarMember α)) (e : StreamEnd) (convert : α → Bool → β)
    (extractTop : α → α) (output_path output_name : String)
    (generate_3D : Bool) :
    ((generate_datasets_from_sample_list convert extractTop
        (extract_vtk_folders_from_tar tar_path members e).1
        output_path output_name true generate_3D).2
      = ((extract_vtk_folders_from_tar tar_path members e).1).flatMap
          (fun kv =>
            (if generate_3D then
                [bucket3DWrite convert output_path output_name kv]
              else [])
            ++ [bucket2DWrite convert extractTop output_path output_name kv]))
    ∧ (((extract_vtk_folders_from_tar tar_path members e).1).map Prod.fst).Nodup := by
  constructor
  · rw [gdfsl_eq]
    simp
  · exact (extract_good tar_path members e).1

/-- C2: a directory marker read while the open sequence is non-empty flushes
that sequence into the registry under its own length and resets the open
sequence to empty; a directory marker read while the open sequence is empty
changes nothing; and at normal end-of-stream a non-empty open sequence is
flushed into the registry. -/
theorem C2_boundary_flush {α : Type} (st : List α × Registry α)
    (nm : List Char) (tar_path : String) (members : List (TarMember α)) :
    (st.1 ≠ [] →
        processMember st (TarMember.dir nm)
          = ([], addToBucket st.1.length st.1 st.2))
    ∧ (st.1 = [] → processMember st (TarMember.dir nm) = st)
    ∧ ((members.foldl processMember ([], [])).1 ≠ [] →
        (extract_vtk_folders_from_tar tar_path members StreamEnd.normal).1
          = addToBucket (members.foldl processMember ([], [])).1.length
              (members.foldl processMember ([], [])).1
              (members.foldl processMember ([], [])).2) := by
  refine ⟨?_, ?_, ?_⟩
  · intro h
    simp [processMember, process_directory, List.isEmpty_iff, h]
  · intro h
    simp [processMember, List.isEmpty_iff, h]
  · intro h
    rw [extract_vtk_folders_from_tar]
    simp [process_directory, List.isEmpty_iff, h]

/-- Witness for C2 at concrete inputs. -/
theorem C2_boundary_flush_witness :
    (processMember (([5], []) : List Nat × Registry Nat) (TarMember.dir ['d'])
        = ([], [(1, [[5]])]))
    ∧ (processMember (([], []) : List Nat × Registry Nat) (TarMember.dir ['d'])
        = ([], []))
    ∧ ((extract_vtk_folders_from_tar "t"
          [TarMember.file sampleVtiName (some 5)] StreamEnd.normal).1
        = [(1, [[5]])]) := by
  refine ⟨?_, ?_, ?_⟩
  · exact (C2_boundary_flush (([5], []) : List Nat × Registry Nat) ['d'] "t" []).1
      (by decide)
  · exact (C2_boundary_flush (([], []) : List Nat × Registry Nat) ['d'] "t" []).2.1
      rfl
  · have h := (C2_boundary_flush (([], []) : List Nat × Registry Nat) ['d'] "t"
      [TarMember.file sampleVtiName (some 5)]).2.2 (by decide)
    rw [h]
    decide

/-- C3: on an archive stream that ends in truncation (`EOFError`), ingestion
salvages by flushing the open sequence into the registry built so far,
emits exactly the warning diagnostic, and returns that registry; in
particular, a well-formed stream holding one complete experiment followed by
truncation yields a registry with exactly that experiment. -/
theorem C3_truncation_salvage {α : Type} (tar_path : String)
    (members : List (TarMember α)) (d nm : List Char) (frames : List α)
    (hnm : nameMatchesFramePattern nm = true) (hf : frames ≠ []) :
    ((extract_vtk_folders_from_tar tar_path members StreamEnd.truncated).1
        = (process_directory (members.foldl processMember ([], [])).1
            (members.foldl processMember ([], [])).2).2)
    ∧ ((extract_vtk_folders_from_tar tar_path members StreamEnd.truncated).2
        = ["Warning: Reached corrupted section in tar file"])
    ∧ ((extract_vtk_folders_from_tar tar_path
          (TarMember.dir d :: frames.map (fun a => TarMember.file nm (some a)))
          StreamEnd.truncated).1
        = [(frames.length, [frames])]) := by
  refine ⟨rfl, rfl, ?_⟩
  have hfold : (TarMember.dir d :: frames.map
        (fun a => TarMember.file nm (some a))).foldl processMember
        (([], []) : List α × Registry α)
      = (frames, []) := by
    rw [List.foldl_cons]
    have h1 : processMember (([], []) : List α × Registry α) (TarMember.dir d)
        = ([], []) := by
      simp [processMember]
    rw [h1, foldl_processMember_no_boundary]
    · have h2 : (frames.map (fun a => TarMember.file nm (some a))).filterMap
          framePayload = frames := by
        rw [List.filterMap_map]
        have h3 : (framePayload ∘ fun a => TarMember.file nm (some a))
            = fun a => some (α := α) a := by
          funext a
          simp [framePayload, hnm]
        rw [h3]
        simp
      rw [h2]
      simp
    · intro m hm
      rcases List.mem_map.mp hm with ⟨a, _, ha⟩
      rw [← ha]
      rfl
  have hres : (extract_vtk_folders_from_tar tar_path
        (TarMember.dir d :: frames.map (fun a => TarMember.file nm (some a)))
        StreamEnd.truncated).1
      = (process_directory ((TarMember.dir d :: frames.map
          (fun a => TarMember.file nm (some a))).foldl processMember
          ([], [])).1 ((TarMember.dir d :: frames.map
          (fun a => TarMember.file nm (some a))).foldl processMember
          ([], [])).2).2 := rfl
  rw [hres, hfold, process_directory]
  simp [List.isEmpty_iff, hf, addToBucket]

/-- Witness for C3 at concrete inputs. -/
theorem C3_truncation_salvage_witness :
    ((extract_vtk_folders_from_tar "t" ([] : List (TarMember Nat))
        StreamEnd.truncated).1 = [])
    ∧ ((extract_vtk_folders_from_tar "t" ([] : List (TarMember Nat))
        StreamEnd.truncated).2
        = ["Warning: Reached corrupted section in tar file"])
    ∧ ((extract_vtk_folders_from_tar "t"
          (TarMember.dir ['A'] :: ([1, 2, 3] : List Nat).map
            (fun a => TarMember.file sampleVtiName (some a)))
          StreamEnd.truncated).1
        = [(3, [[1, 2, 3]])]) := by
  have h := C3_truncation_salvage "t" ([] : List (TarMember Nat)) ['A']
    sampleVtiName [1, 2, 3] (by decide) (by decide)
  refine ⟨?_, h.2.1, h.2.2⟩
  rw [h.1]
  decide

/-- C4: every registry returned by ingestion, on every exit path, has pairwise
distinct length keys (so a sequence sits in exactly one bucket) and every
sequence stored under key `L` has exactly `L` frames and is non-empty. -/
theorem C4_registry_invariants {α : Type} (tar_path : String)
    (members : List (TarMember α)) (e : StreamEnd) :
    (((extract_vtk_folders_from_tar tar_path members e).1).map Prod.fst).Nodup
    ∧ ∀ kv ∈ (extract_vtk_folders_from_tar tar_path members e).1,
        ∀ sq ∈ kv.2, sq.length = kv.1 ∧ sq ≠ [] :=
  extract_good tar_path members e

/-- Witness for C4 at concrete inputs. -/
theorem C4_registry_invariants_witness :
    ((extract_vtk_folders_from_tar "t"
        [TarMember.dir ['A'], TarMember.file sampleVtiName (some 5)]
        StreamEnd.normal).1 = [(1, [[5]])])
    ∧ ([5] : List Nat).length = 1 ∧ ([5] : List Nat) ≠ [] :=
  ⟨by decide,
   (C4_registry_invariants "t"
      [TarMember.dir ['A'], TarMember.file sampleVtiName (some 5)]
      StreamEnd.normal).2 (1, [[5]]) (by decide) [5] (by decide)⟩

/-- C5: a file member whose name lacks the ".vti." marker and a member that is
neither a directory nor a regular file leave the ingestion state unchanged;
and over any run of members free of directory markers, exactly the matching,
successfully decoded file members are appended to the open sequence, in
stream order — so an ignored member between two valid frame members leaves
those frames adjacent. -/
theorem C5_non_matching_ignored {α : Type} (st : List α × Registry α)
    (nm : List Char) (d : Option α) (hnm : nameMatchesFramePattern nm = false)
    (members : List (TarMember α))
    (hnb : ∀ m ∈ members, m.isBoundary = false) :
    (processMember st (TarMember.file nm d) = st)
    ∧ (processMember st (TarMember.special nm) = st)
    ∧ (members.foldl processMember st
        = (st.1 ++ members.filterMap framePayload, st.2)) := by
  refine ⟨?_, ?_, foldl_processMember_no_boundary members hnb st⟩
  · simp [processMember, hnm]
  · simp [processMember]

/-- Witness for C5 at concrete inputs: a non-matching entry between two valid
frame entries is ignored and the two frames end up adjacent. -/
theorem C5_non_matching_ignored_witness :
    (processMember (([], []) : List Nat × Registry Nat)
        (TarMember.file ['j', 'u', 'n', 'k'] (some 9)) = ([], []))
    ∧ (processMember (([], []) : List Nat × Registry Nat)
        (TarMember.special ['j', 'u', 'n', 'k']) = ([], []))
    ∧ ([TarMember.file sampleVtiName (some 1),
        TarMember.special ['j', 'u', 'n', 'k'],
        TarMember.file sampleVtiName (some 2)].foldl processMember
          (([], []) : List Nat × Registry Nat)
        = ([1, 2], [])) := by
  have h := C5_non_matching_ignored (([], []) : List Nat × Registry Nat)
    ['j', 'u', 'n', 'k'] (some 9) (by decide)
    [TarMember.file sampleVtiName (some 1),
     TarMember.special ['j', 'u', 'n', 'k'],
     TarMember.file sampleVtiName (some 2)] (by decide)
  refine ⟨h.1, h.2.1, ?_⟩
  rw [h.2.2]
  decide

/-- C6 counterexample: with `slicing` and `generate_3D` both true on a
one-bucket registry, the returned path list is `[2D, 3D]` but the files are
written in order `[3D, 2D]`, so the returned list does not follow write
order. -/
theorem C6_counterexample :
    ¬ ((generate_datasets_from_sample_list natConvert natExtractTop
          [(1, [[7]])] "out" "base" true true).1
        = ((generate_datasets_from_sample_list natConvert natExtractTop
            [(1, [[7]])] "out" "base" true true).2).map Prod.fst) := by
  decide

/-- C6 amended: the returned list contains exactly the paths of the files
actually written (a permutation of the write order), listed per length in
registry iteration order with the 2D path before the 3D path; when the 3D
variant is not generated (as in the repository's `main`) the returned list
equals the write order exactly. -/
theorem C6_returned_paths {α β : Type} (convert : α → Bool → β)
    (extractTop : α → α) (reg : Registry α) (p n : String) (s g : Bool) :
    ((generate_datasets_from_sample_list convert extractTop reg p n s g).1
        = reg.flatMap (fun kv =>
            (if s then [(bucket2DWrite convert extractTop p n kv).1] else [])
            ++ (if g then [(bucket3DWrite convert p n kv).1] else [])))
    ∧ ((generate_datasets_from_sample_list convert extractTop reg p n s g).1).Perm
        (((generate_datasets_from_sample_list convert extractTop reg p n s g).2).map
          Prod.fst)
    ∧ (g = false →
        (generate_datasets_from_sample_list convert extractTop reg p n s g).1
          = ((generate_datasets_from_sample_list convert extractTop
              reg p n s g).2).map Prod.fst) := by
  refine ⟨?_, ?_, ?_⟩
  · rw [gdfsl_eq]
  · rw [gdfsl_eq]
    simp only [List.map_flatMap]
    apply List.Perm.flatMap_left
    intro kv _
    cases s <;> cases g <;> simp [List.perm_append_comm]
    exact List.Perm.swap _ _ _
  · intro hg
    subst hg
    rw [gdfsl_eq]
    simp only [List.map_flatMap]
    cases s <;> simp

/-- Witness for C6 amended at concrete inputs. -/
theorem C6_returned_paths_witness :
    (generate_datasets_from_sample_list natConvert natExtractTop
        [(1, [[7]])] "out" "base" true false).1
      = ((generate_datasets_from_sample_list natConvert natExtractTop
          [(1, [[7]])] "out" "base" true false).2).map Prod.fst :=
  (C6_returned_paths natConvert natExtractTop
    [(1, [[7]])] "out" "base" true false).2.2 rfl

/-- C7: when the archive cannot be opened (`tarfile.ReadError` or any other
exception before any member is read), ingestion reports the failure
diagnostic and returns an empty registry without raising. -/
theorem C7_open_failure {α : Type} (tar_path msg : String) :
    ((extract_vtk_folders_from_tar (α := α) tar_path [] StreamEnd.readFailed).1
        = []
      ∧ (extract_vtk_folders_from_tar (α := α) tar_path [] StreamEnd.readFailed).2
        = ["Error reading tar file: " ++ tar_path])
    ∧ ((extract_vtk_folders_from_tar (α := α) tar_path []
          (StreamEnd.otherFailed msg)).1 = []
      ∧ (extract_vtk_folders_from_tar (α := α) tar_path []
          (StreamEnd.otherFailed msg)).2
        = ["An error occurred while processing the TAR file: " ++ msg]) :=
  ⟨⟨rfl, rfl⟩, rfl, rfl⟩

/-- C8: every dataset file written by the generation stage carries exactly one
dataset, named "images", stacking the converted frames of its (length,
variant) pair — the write events are exactly the per-length 3D-then-2D
events, whose file contents are the singleton "images" dataset — and a write
maps its path to its file in the filesystem regardless of what was there
before (mode "w" overwrites). -/
theorem C8_dataset_files {α β : Type} (convert : α → Bool → β)
    (extractTop : α → α) (reg : Registry α) (p n : String) (s g : Bool)
    (fs : String → Option (H5File β)) (w : String × H5File β) :
    ((generate_datasets_from_sample_list convert extractTop reg p n s g).2
      = reg.flatMap (fun kv =>
          (if g then [bucket3DWrite convert p n kv] else [])
          ++ (if s then [bucket2DWrite convert extractTop p n kv] else [])))
    ∧ (∀ kv : Nat × List (List α),
        (bucket2DWrite convert extractTop p n kv).2
          = [("images", kv.2.flatten.map (fun v => convert (extractTop v) true))]
        ∧ (bucket3DWrite convert p n kv).2
          = [("images", kv.2.flatten.map (fun v => convert v false))])
    ∧ applyWrite fs w w.1 = some w.2 := by
  refine ⟨?_, fun kv => ⟨rfl, rfl⟩, ?_⟩
  · rw [gdfsl_eq]
  · simp [applyWrite]

/-- C10: when traversal ends in `tarfile.ReadError` or any other non-EOF
exception, ingestion returns only the sequences flushed at directory
boundaries before the failure; the frames of the open, not-yet-flushed
sequence are discarded (no salvage flush) — concretely, with the second
experiment's frame still open, only the first experiment survives. -/
theorem C10_no_salvage_on_other_errors {α : Type} (tar_path msg : String)
    (members : List (TarMember α)) :
    ((extract_vtk_folders_from_tar tar_path members StreamEnd.readFailed).1
        = (members.foldl processMember ([], [])).2)
    ∧ ((extract_vtk_folders_from_tar tar_path members
          (StreamEnd.otherFailed msg)).1
        = (members.foldl processMember ([], [])).2)
    ∧ ((extract_vtk_folders_from_tar "t"
          [TarMember.dir ['A'], TarMember.file sampleVtiName (some 1),
           TarMember.dir ['B'], TarMember.file sampleVtiName (some 2)]
          StreamEnd.readFailed).1
        = [(1, [[1]])]) :=
  ⟨rfl, rfl, by decide⟩

end Spparks
